import Mathlib

/-!
Formal model of the CPAP mask inventory reporting utility (`app.py`).

The two CSV tables are modelled as lists of rows.  pandas
`Series.str.contains` treats its pattern as a regular expression
(`regex=True`, matched with `re.search`, `re.error` on an invalid
pattern).  The two dynamic patterns — the user query and the catalog
`ItemID` — are therefore modelled with the regular-expression matcher
defined below, case-insensitively exactly where the source passes
`case=False`.  The fixed alternation patterns of the source (for example
`'Fitpack|Complete Mask System|Kit'`) contain no metacharacters besides
the alternation bar and are modelled as disjunctions of plain substring
tests; Python's plain `in` checks are modelled as substring tests.

The `result['HCPCS']` dictionary built by `find_mask_items` duplicates the
per-item `hcpcs` fields and is never read by any other function of the
program, so it is not modelled.

`print_mask_report` is modelled as a function returning the list of
strings passed to `print`, one element per call; `none` models a run that
raises an uncaught exception (the partial output printed before the
exception is not modelled).
-/

/-- One row of `master_inventory.csv` (columns `ItemID`, `ItemName`, `Category`). -/
structure CatalogRow where
  itemID : String
  itemName : String
  category : String
deriving DecidableEq

/-- One row of `SNAP_inventory_organized.csv` (columns `Item Code`, `Description`, `HCPCS`). -/
structure BillingRow where
  code : String
  description : String
  hcpcs : String
deriving DecidableEq

/-- A classified item as built by `find_mask_items`:
the dict `{'id': ..., 'desc': ..., 'hcpcs': ...}`. -/
structure Item where
  id : String
  desc : String
  hcpcs : String
deriving DecidableEq

/-- Python `str.lower()` (the data in play is ASCII). -/
def lowerStr (s : String) : String := ⟨s.data.map Char.toLower⟩

/-- Python `str.strip()`: remove leading and trailing whitespace. -/
def stripStr (s : String) : String :=
  ⟨((s.data.dropWhile Char.isWhitespace).reverse.dropWhile Char.isWhitespace).reverse⟩

/-- Substring containment: Python `pat in s`, pandas `.str.contains(pat)`
with default case sensitivity. -/
def hasSub (s pat : String) : Bool := decide (pat.data <:+: s.data)

/-- Case-insensitive substring containment, pandas `.str.contains(pat, case=False)`. -/
def hasSubCI (s pat : String) : Bool := hasSub (lowerStr s) (lowerStr pat)

/-!
### Regular-expression model

pandas `Series.str.contains(pat)` defaults to `regex=True`: the pattern is
compiled with `re` and matched with `re.search`, and an invalid pattern
raises `re.error`.  This matters for the two dynamic patterns of the
program — the user query (app.py lines 46, 47, 123) and the catalog
`ItemID` (lines 69, 126, 172) — so those sites are modelled with the
regular-expression matcher below.  The remaining `str.contains` patterns
are fixed alternations of plain keywords (no other metacharacters) and
stay modelled as disjunctions of substring tests; Python's plain `in`
checks (the cushion size chain, the accessory keywords, line 221) stay
modelled as substring tests.

Modelled fragment of Python `re`: literal characters, `\` followed by a
non-alphanumeric character (an escaped literal), `.` (any character but a
newline), the alternation bar, and the three postfix repetitions `*`,
`+`, `?`.  A lone `(`, `)` or `[`, a trailing backslash, an alphanumeric
escape, or a repetition with nothing to repeat fail to compile — as they
do in Python.  Constructs outside the fragment (groups, classes, braces,
anchors, class escapes such as a digit-class escape) are conservatively
mapped to the compile-failure path as well; no claim below depends on a
pattern outside the fragment.  Case-insensitive matching (`case=False`)
is modelled by lower-casing both subject and pattern, which on this
fragment agrees with compiling with `IGNORECASE`.
-/

/-- Regular-expression abstract syntax (the modelled fragment). -/
inductive Re where
  | emptyset
  | eps
  | char (c : Char)
  | dot
  | seq (r1 r2 : Re)
  | alt (r1 r2 : Re)
  | star (r : Re)
deriving DecidableEq

/-- Does the expression accept the empty string? -/
def reNullable : Re → Bool
  | .emptyset => false
  | .eps => true
  | .char _ => false
  | .dot => false
  | .seq r1 r2 => reNullable r1 && reNullable r2
  | .alt r1 r2 => reNullable r1 || reNullable r2
  | .star _ => true

/-- Brzozowski derivative of an expression by a character. -/
def reDeriv (r : Re) (c : Char) : Re :=
  match r with
  | .emptyset => .emptyset
  | .eps => .emptyset
  | .char d => if c = d then .eps else .emptyset
  | .dot => if c = '\n' then .emptyset else .eps
  | .seq r1 r2 =>
    if reNullable r1 then .alt (.seq (reDeriv r1 c) r2) (reDeriv r2 c)
    else .seq (reDeriv r1 c) r2
  | .alt r1 r2 => .alt (reDeriv r1 c) (reDeriv r2 c)
  | .star r1 => .seq (reDeriv r1 c) (.star r1)

/-- The language of an expression. -/
inductive ReMatch : Re → List Char → Prop where
  | eps : ReMatch .eps []
  | char (c : Char) : ReMatch (.char c) [c]
  | dot {c : Char} : c ≠ '\n' → ReMatch .dot [c]
  | seq {r1 r2 : Re} {s1 s2 : List Char} :
      ReMatch r1 s1 → ReMatch r2 s2 → ReMatch (.seq r1 r2) (s1 ++ s2)
  | altL {r1 r2 : Re} {s : List Char} : ReMatch r1 s → ReMatch (.alt r1 r2) s
  | altR {r1 r2 : Re} {s : List Char} : ReMatch r2 s → ReMatch (.alt r1 r2) s
  | starNil (r : Re) : ReMatch (.star r) []
  | starCons {r : Re} {s1 s2 : List Char} :
      ReMatch r s1 → ReMatch (.star r) s2 → ReMatch (.star r) (s1 ++ s2)

/-- Does the expression match some prefix of the input? -/
def rePrefix (r : Re) : List Char → Bool
  | [] => reNullable r
  | c :: rest => reNullable r || rePrefix (reDeriv r c) rest

/-- `re.search` as a boolean: does the expression match some substring of
the input (a prefix of some suffix)? -/
def reSearch (r : Re) : List Char → Bool
  | [] => rePrefix r []
  | c :: rest => rePrefix r (c :: rest) || reSearch r rest

/-- Assemble the current concatenation (atoms collected in reverse). -/
def mkConcat (cur : List Re) : Re :=
  cur.foldl (fun acc a => Re.seq a acc) Re.eps

/-- Assemble the alternation (completed alternatives in reverse). -/
def mkAlts (alts : List Re) (last : Re) : Re :=
  alts.foldl (fun acc a => Re.alt a acc) last

/-- The characters that are not plain literals in the modelled fragment. -/
def reSpecial (c : Char) : Bool :=
  c = '|' || c = '*' || c = '+' || c = '?' || c = '.' || c = '\\' ||
    c = '(' || c = ')' || c = '[' || c = '{' || c = '}' || c = '^' || c = '$'

/-- One-pass parser for the modelled fragment; `none` models `re.error`
(and, conservatively, constructs outside the fragment). -/
def reParseLoop (alts cur : List Re) : List Char → Option Re
  | [] => some (mkAlts alts (mkConcat cur))
  | c :: rest =>
    if c = '|' then reParseLoop (mkConcat cur :: alts) [] rest
    else if c = '*' then
      match cur with
      | [] => none
      | a :: cs => reParseLoop alts (Re.star a :: cs) rest
    else if c = '+' then
      match cur with
      | [] => none
      | a :: cs => reParseLoop alts (Re.seq a (Re.star a) :: cs) rest
    else if c = '?' then
      match cur with
      | [] => none
      | a :: cs => reParseLoop alts (Re.alt a Re.eps :: cs) rest
    else if c = '.' then reParseLoop alts (Re.dot :: cur) rest
    else if c = '\\' then
      match rest with
      | [] => none
      | d :: rest2 =>
        if d.isAlphanum then none else reParseLoop alts (Re.char d :: cur) rest2
    else if c = '(' || c = ')' || c = '[' || c = '{' || c = '}' || c = '^' || c = '$' then
      none
    else reParseLoop alts (Re.char c :: cur) rest

def reParse (pat : String) : Option Re := reParseLoop [] [] pat.data

/-- pandas `.str.contains(pat)` (`regex=True`, case-sensitive): `none`
models the `re.error` raised on an invalid pattern. -/
def reContains (s pat : String) : Option Bool :=
  (reParse pat).map (fun rx => reSearch rx s.data)

/-- pandas `.str.contains(pat, case=False)` (`regex=True`). -/
def reContainsCI (s pat : String) : Option Bool :=
  reContains (lowerStr s) (lowerStr pat)

/-- A pattern made only of plain literal characters. -/
def isLitPattern (pat : String) : Bool := pat.data.all (fun c => !reSpecial c)

/-- The literal expression for a character list. -/
def litRe : List Char → Re
  | [] => .eps
  | c :: cs => .seq (.char c) (litRe cs)

/-- The item built from a billing row in the Frame/Headgear/Cushions passes. -/
def BillingRow.toItem (r : BillingRow) : Item :=
  ⟨r.code, r.description, r.hcpcs⟩

/-- The eight fixed cushion size keys (`'Other'` is kept separately). -/
inductive CushionSize where
  | small
  | smallWide
  | medium
  | mediumWide
  | large
  | xSmall
  | wide
  | petite
deriving DecidableEq

/-- The `result['Cushions']` dictionary: one optional item per fixed size
key plus the `'Other'` overflow list. -/
structure Cushions where
  small : Option Item := none
  smallWide : Option Item := none
  medium : Option Item := none
  mediumWide : Option Item := none
  large : Option Item := none
  xSmall : Option Item := none
  wide : Option Item := none
  petite : Option Item := none
  other : List Item := []
deriving DecidableEq

def Cushions.get (c : Cushions) : CushionSize → Option Item
  | .small => c.small
  | .smallWide => c.smallWide
  | .medium => c.medium
  | .mediumWide => c.mediumWide
  | .large => c.large
  | .xSmall => c.xSmall
  | .wide => c.wide
  | .petite => c.petite

def Cushions.set (c : Cushions) : CushionSize → Item → Cushions
  | .small, it => { c with small := some it }
  | .smallWide, it => { c with smallWide := some it }
  | .medium, it => { c with medium := some it }
  | .mediumWide, it => { c with mediumWide := some it }
  | .large, it => { c with large := some it }
  | .xSmall, it => { c with xSmall := some it }
  | .wide, it => { c with wide := some it }
  | .petite, it => { c with petite := some it }

/-- Where the size chain sends a cushion row: a size bucket, or the
final `else` branch appending to `'Other'`. -/
inductive CushionBucket where
  | size (s : CushionSize)
  | overflow
deriving DecidableEq

/-- The `if`/`elif` size chain of `find_mask_items` (app.py lines 95-112),
evaluated on the lower-cased description. -/
def classifyCushion (dl : String) : CushionBucket :=
  if hasSub dl "small wide" || hasSub dl "sml-wd" || hasSub dl "sml/wd" then .size .smallWide
  else if hasSub dl "medium wide" || hasSub dl "med-wd" || hasSub dl "md/wide" then .size .mediumWide
  else if hasSub dl "wide" && !hasSub dl "small" && !hasSub dl "medium" then .size .wide
  else if hasSub dl "small" && !hasSub dl "wide" then .size .small
  else if hasSub dl "medium" && !hasSub dl "wide" then .size .medium
  else if hasSub dl "large" then .size .large
  else if hasSub dl "x-small" || hasSub dl "x-sml" || hasSub dl "xs" then .size .xSmall
  else if hasSub dl "petite" || hasSub dl "ptt" then .size .petite
  else .overflow

/-- One iteration of the cushion loop: classify the row's description and
store the row's item in the corresponding slot (overwriting), or append it
to the `'Other'` list. -/
def applyCushionRow (c : Cushions) (row : BillingRow) : Cushions :=
  match classifyCushion (lowerStr row.description) with
  | .size s => c.set s row.toItem
  | .overflow => { c with other := c.other ++ [row.toItem] }

/-- HCPCS lookup for a catalog id (app.py lines 69, 126, 172): take the
billing rows whose `Item Code` is matched, case-sensitively, by the id
used as a regular expression (`.str.contains` without `case=False`); the
first row's `HCPCS` if any, else `'N/A'`.  An id that fails to compile
raises `re.error` in the program; `find_mask_items` builds a report only
when every looked-up id compiles, so the `none` branch below is
unreachable there (it is kept so the function stays total for
`find_airsense_accessories`, where such an id would likewise abort the
run). -/
def lookupHCPCS (snap : List BillingRow) (itemID : String) : String :=
  match reParse itemID with
  | none => "N/A"
  | some rx =>
    match snap.filter (fun r => reSearch rx r.code.data) with
    | [] => "N/A"
    | r :: _ => r.hcpcs

/-- `result['Alternatives']`: either the initial fallback list of plain
strings, or the list of item dicts substituted when `master_mask` is
non-empty.  (The Python value is heterogeneous: strings initially, dicts
after the substitution.) -/
inductive Alternatives where
  | fallback (msgs : List String)
  | items (xs : List Item)
deriving DecidableEq

structure MaskReport where
  fitpack : List Item
  frame : List Item
  headgear : List Item
  cushions : Cushions
  summary : String
  pros : List String
  cons : List String
  alternatives : Alternatives
deriving DecidableEq

/-- Outcome of `find_mask_items`: the raised `ValueError`, a raised
`re.error` (invalid query or invalid looked-up id), the `{'error': ...}`
dict, or a full report dict. -/
inductive FindResult where
  | invalidArg
  | reError
  | notFound (msg : String)
  | ok (r : MaskReport)
deriving DecidableEq

def summaryFallback : String :=
  "No summary found. This is a general mask report based on available data."

def prosFallback : List String :=
  ["Custom pros not available. Add manually or use web search for details."]

def consFallback : List String :=
  ["Custom cons not available. Add manually or use web search for details."]

def alternativesFallback : List String :=
  ["No alternatives found. Suggest similar masks from the inventory."]

/-- `master_mask` (app.py line 46): catalog rows whose name is matched by
the query as a case-insensitive regular expression.  `find_mask_items`
filters only after checking that the query compiles, so the `getD false`
default is never reached there. -/
def masterMatches (master : List CatalogRow) (maskName : String) : List CatalogRow :=
  master.filter (fun r => (reContainsCI r.itemName maskName).getD false)

/-- `snap_mask` (app.py line 47): billing rows whose description is
matched by the query as a case-insensitive regular expression. -/
def snapMatches (snap : List BillingRow) (maskName : String) : List BillingRow :=
  snap.filter (fun r => (reContainsCI r.description maskName).getD false)

/-- The `cushions` row set (app.py line 86): matched billing rows whose
description contains a cushion keyword. -/
def cushionMatches (snap : List BillingRow) (maskName : String) : List BillingRow :=
  (snapMatches snap maskName).filter (fun r =>
    hasSubCI r.description "Cushion" || hasSubCI r.description "Pillow" ||
      hasSubCI r.description "Seal")

/-- The `fitpack` row set (app.py line 67): matched catalog rows whose
name also contains one of the fixed kit keywords. -/
def fitpackMatches (master : List CatalogRow) (maskName : String) : List CatalogRow :=
  (masterMatches master maskName).filter (fun r =>
    hasSubCI r.itemName "Fitpack" || hasSubCI r.itemName "Complete Mask System" ||
      hasSubCI r.itemName "Kit")

/-- The `alternatives` row set (app.py lines 122-123): up to two catalog
rows sharing the given category whose name is not matched by the query. -/
def alternativeRows (master : List CatalogRow) (maskName : String)
    (category : String) : List CatalogRow :=
  (master.filter (fun r =>
    r.category = category && !((reContainsCI r.itemName maskName).getD false))).take 2

/-- The report dict built by `find_mask_items` on its success path
(app.py lines 52-129). -/
def buildReport (master : List CatalogRow) (snap : List BillingRow)
    (maskName : String) : MaskReport :=
  let masterMask := masterMatches master maskName
  let snapMask := snapMatches snap maskName
  let fitpackRows := fitpackMatches master maskName
  let fitpack := fitpackRows.map (fun r =>
    (⟨r.itemID, r.itemName, lookupHCPCS snap r.itemID⟩ : Item))
  let frame := (snapMask.filter (fun r =>
    hasSubCI r.description "Frame System" || hasSubCI r.description "Mask Only")).map
      BillingRow.toItem
  let headgear := (snapMask.filter (fun r =>
    hasSubCI r.description "Headgear" || hasSubCI r.description "HG")).map
      BillingRow.toItem
  let cushions := (cushionMatches snap maskName).foldl applyCushionRow {}
  let summary := match masterMask with
    | [] => summaryFallback
    | first :: _ =>
      "The " ++ maskName ++ " is a " ++ first.category ++
        " mask. Key features inferred from data: " ++ first.itemName ++ "."
  let alternatives : Alternatives := match masterMask with
    | [] => .fallback alternativesFallback
    | first :: _ => .items ((alternativeRows master maskName first.category).map
        (fun r => (⟨r.itemID, r.itemName, lookupHCPCS snap r.itemID⟩ : Item)))
  { fitpack := fitpack, frame := frame, headgear := headgear, cushions := cushions,
    summary := summary, pros := prosFallback, cons := consFallback,
    alternatives := alternatives }

/-- Do all the ids looked up while building the report compile as
regular expressions?  (The fitpack rows' ids, and — when `master_mask`
is non-empty — the alternative rows' ids.) -/
def idsCompile (master : List CatalogRow) (maskName : String) : Bool :=
  (fitpackMatches master maskName).all (fun r => (reParse r.itemID).isSome) &&
    (match masterMatches master maskName with
     | [] => true
     | first :: _ =>
       (alternativeRows master maskName first.category).all
         (fun r => (reParse r.itemID).isSome))

/-- `find_mask_items(master_df, snap_df, mask_name)` (app.py lines 37-129).
A query that fails to compile raises `re.error` in the line-46 filter; an
id that fails to compile raises in the line-69/126 lookups, after the
emptiness check — both modelled as `reError` (the dict mutations made
before such an exception are discarded, as with the other modelled
exceptions). -/
def find_mask_items (master : List CatalogRow) (snap : List BillingRow)
    (maskName : String) : FindResult :=
  if maskName = "" then .invalidArg
  else if (reParse (lowerStr maskName)).isNone then .reError
  else if masterMatches master maskName = [] ∧ snapMatches snap maskName = [] then
    .notFound ("No items found for mask: " ++ maskName)
  else if idsCompile master maskName then .ok (buildReport master snap maskName)
  else .reError

/-- The report held by an `ok` result (junk default otherwise). -/
def FindResult.getReport : FindResult → MaskReport
  | .ok r => r
  | _ => { fitpack := [], frame := [], headgear := [], cushions := {},
           summary := "", pros := [], cons := [], alternatives := .fallback [] }

structure BundleEntry where
  id : String
  desc : String
  hcpcs : String
  qty : Nat
  type : String
deriving DecidableEq

/-- Insertion order of the `result['Cushions']` dict keys; the `'Other'`
key comes after all of these. -/
def cushionKeyOrder : List CushionSize :=
  [.small, .smallWide, .medium, .mediumWide, .large, .xSmall, .wide, .petite]

def cushionEntry (c : Item) : BundleEntry := ⟨c.id, c.desc, c.hcpcs, 3, "Cushion"⟩

/-- `generate_ordering_bundle(mask_items)` (app.py lines 131-161): the
cushion dict is iterated in key insertion order (sizes, then `'Other'`),
then the first headgear, frame and fitpack items are appended. -/
def generate_ordering_bundle (r : MaskReport) : List BundleEntry :=
  let afterSizes := cushionKeyOrder.foldl (fun acc s =>
    match r.cushions.get s with
    | some c => acc ++ [cushionEntry c]
    | none => acc) []
  let afterOther := afterSizes ++ r.cushions.other.map cushionEntry
  let afterHG := afterOther ++ (match r.headgear with
    | h :: _ => [(⟨h.id, h.desc, h.hcpcs, 1, "Headgear"⟩ : BundleEntry)]
    | [] => [])
  let afterFrame := afterHG ++ (match r.frame with
    | f :: _ => [(⟨f.id, f.desc, f.hcpcs, 1, "Frame"⟩ : BundleEntry)]
    | [] => [])
  afterFrame ++ (match r.fitpack with
    | f :: _ => [(⟨f.id, f.desc, f.hcpcs, 1, "Fitpack"⟩ : BundleEntry)]
    | [] => [])

/-- The three accessory buckets of `find_airsense_accessories`. -/
structure Accessories where
  hose : List Item
  filter : List Item
  waterChamber : List Item
deriving DecidableEq

/-- One iteration of the master-table accessory loop (app.py lines 169-180):
no duplicate check. -/
def applyMasterAccRow (snap : List BillingRow) (acc : Accessories)
    (row : CatalogRow) : Accessories :=
  let desc := lowerStr row.itemName
  let item : Item := ⟨row.itemID, row.itemName, lookupHCPCS snap row.itemID⟩
  if hasSub desc "tubing" || hasSub desc "hose" then
    { acc with hose := acc.hose ++ [item] }
  else if hasSub desc "filter" then
    { acc with filter := acc.filter ++ [item] }
  else if hasSub desc "humid" || hasSub desc "water" || hasSub desc "chamber" then
    { acc with waterChamber := acc.waterChamber ++ [item] }
  else acc

/-- One iteration of the billing-table accessory loop (app.py lines 184-198):
the item is appended only when the identical dict is not already in the
bucket (`if item not in accessories[...]`). -/
def applySnapAccRow (acc : Accessories) (row : BillingRow) : Accessories :=
  let desc := lowerStr row.description
  let item := row.toItem
  if hasSub desc "tubing" || hasSub desc "hose" then
    if item ∈ acc.hose then acc else { acc with hose := acc.hose ++ [item] }
  else if hasSub desc "filter" then
    if item ∈ acc.filter then acc else { acc with filter := acc.filter ++ [item] }
  else if hasSub desc "water chamber" || hasSub desc "humid" || hasSub desc "chamber" then
    if item ∈ acc.waterChamber then acc
    else { acc with waterChamber := acc.waterChamber ++ [item] }
  else acc

/-- The accessory buckets after the master-table pass only. -/
def accMasterPhase (master : List CatalogRow) (snap : List BillingRow) : Accessories :=
  (master.filter (fun r =>
    hasSubCI r.itemName "A10" || hasSubCI r.itemName "A11")).foldl
      (applyMasterAccRow snap) ⟨[], [], []⟩

/-- `find_airsense_accessories(master_df, snap_df)` (app.py lines 163-200). -/
def find_airsense_accessories (master : List CatalogRow)
    (snap : List BillingRow) : Accessories :=
  (snap.filter (fun r =>
    hasSubCI r.description "AirSense" || hasSubCI r.description "ClimateLine")).foldl
      applySnapAccRow (accMasterPhase master snap)

/-- `format_item_id(item_id)` (app.py lines 202-204). -/
def format_item_id (itemID : String) : String :=
  "`" ++ itemID ++ "` (click to select/copy)"

/-- The per-item line of the Fitpack/Frame/Headgear/Alternatives sections. -/
def itemLine (it : Item) : String :=
  "- " ++ format_item_id it.id ++ ": " ++ it.desc ++ " | HCPCS: " ++ it.hcpcs

def sizeLabel : CushionSize → String
  | .small => "Small"
  | .smallWide => "Small/Wide"
  | .medium => "Medium"
  | .mediumWide => "Medium/Wide"
  | .large => "Large"
  | .xSmall => "X-Small"
  | .wide => "Wide"
  | .petite => "Petite"

def cushionLine (s : CushionSize) (it : Item) : String :=
  "- **" ++ sizeLabel s ++ "**: " ++ format_item_id it.id ++ ": " ++ it.desc ++
    " | HCPCS: " ++ it.hcpcs

/-- One row of the ordering-bundle table (app.py line 266): the description
is cut to its first 50 characters and suffixed with `...`. -/
def bundleLine (e : BundleEntry) : String :=
  "| " ++ format_item_id e.id ++ " | " ++ e.desc.take 50 ++ "... | " ++ e.hcpcs ++
    " | " ++ toString e.qty ++ " | " ++ e.type ++ " |"

def itemSectionLines (items : List Item) : List String :=
  match items with
  | [] => ["- Not found\n"]
  | _ => items.map itemLine

/-- The Cushions section (app.py lines 247-258).  When the `'Other'` list is
non-empty the `if cushion:` branch is taken with `cushion` bound to that
list and `cushion['id']` raises `TypeError` (the `elif` branch is
unreachable), modelled as `none`. -/
def cushionSectionLines (c : Cushions) : Option (List String) :=
  if c.other = [] then
    let lines := cushionKeyOrder.filterMap (fun s => (c.get s).map (cushionLine s))
    some (if lines = [] then ["- No cushions found\n"] else lines)
  else none

def bundleSectionLines (bundle : List BundleEntry) : List String :=
  match bundle with
  | [] => ["- No bundle items available.\n"]
  | _ => ["| Item ID | Description | HCPCS | Qty | Type |",
          "|---------|-------------|-------|-----|------|"] ++ bundle.map bundleLine

/-- The Best Alternatives loop (app.py lines 284-285).  When the fallback
string list is still in place, `alt['id']` indexes a plain string and
raises `TypeError`, modelled as `none`. -/
def alternativesSectionLines : Alternatives → Option (List String)
  | .fallback _ => none
  | .items xs => some (xs.map itemLine)

def accHeader : String := "## AirSense A10/A11 Accessories\n"

def accessorySectionLines (a : Accessories) : List String :=
  [accHeader, "### Hose/Tubing"] ++ a.hose.map itemLine ++
    ["\n### Filters"] ++ a.filter.map itemLine ++
    ["\n### Water Chamber"] ++ a.waterChamber.map itemLine ++ [""]

/-- `show_accessories` (app.py line 221). -/
def show_accessories (maskName : String) : Bool :=
  hasSub (lowerStr maskName) "a11" || hasSub (lowerStr maskName) "airsense a11"

/-- The full list of printed strings for a successfully rendered report
(app.py lines 223-302), given the already-rendered Cushions and Best
Alternatives sections. -/
def reportLines (master : List CatalogRow) (snap : List BillingRow) (maskName : String)
    (r : MaskReport) (cushLines altLines : List String) : List String :=
  ["# " ++ maskName ++ " Mask Report 😴\n", "## Associated Items\n",
   "### Fitpack"] ++ itemSectionLines r.fitpack ++
  ["### Frame Mask"] ++ itemSectionLines r.frame ++
  ["### Headgear"] ++ itemSectionLines r.headgear ++
  ["### Cushions"] ++ cushLines ++
  ["\n## Suggested Ordering Bundle (3-Month Reorder)"] ++
  bundleSectionLines (generate_ordering_bundle r) ++
  ["\n## Summary of Mask", r.summary ++ "\n", "## Pros"] ++
  r.pros.map (fun p => "- " ++ p) ++ [""] ++
  ["## Cons"] ++ r.cons.map (fun p => "- " ++ p) ++ [""] ++
  ["## Best Alternatives"] ++ altLines ++ [""] ++
  (if show_accessories maskName
   then accessorySectionLines (find_airsense_accessories master snap) else []) ++
  ["*Tip*: Clean your mask cushion daily with mild soap and water! 🧼\n",
   "For CPAP returns: 5816 E. Shields Ave, Ste 111, Fresno, CA 93727"]

/-- The rendering of a successfully classified report: `none` when either
the Cushions section or the Best Alternatives section raises. -/
def renderOk (master : List CatalogRow) (snap : List BillingRow)
    (maskName : String) (r : MaskReport) : Option (List String) :=
  match cushionSectionLines r.cushions, alternativesSectionLines r.alternatives with
  | some cushLines, some altLines =>
    some (reportLines master snap maskName r cushLines altLines)
  | _, _ => none

/-- `print_mask_report(mask_name)` (app.py lines 206-302), parameterised by
the two loaded tables; the result is the list of strings passed to
`print`, `none` when the run raises an uncaught exception. -/
def print_mask_report (master : List CatalogRow) (snap : List BillingRow)
    (maskName : String) : Option (List String) :=
  match find_mask_items master snap maskName with
  | .invalidArg => none
  | .reError => none
  | .notFound msg => some ["## Error\n" ++ msg]
  | .ok r => renderOk master snap maskName r

/-- The `__main__` block (app.py lines 305-310): the raw input is stripped;
an empty result prints an error and exits before any report is produced. -/
def cli_run (master : List CatalogRow) (snap : List BillingRow)
    (rawInput : String) : Option (List String) :=
  let maskName := stripStr rawInput
  if maskName = "" then none
  else print_mask_report master snap maskName

/-! ### Basic lemmas about the cushion classification state -/

theorem Cushions.get_set (c : Cushions) (s s' : CushionSize) (it : Item) :
    (c.set s it).get s' = if s' = s then some it else c.get s' := by
  cases s <;> cases s' <;> simp [Cushions.set, Cushions.get]

theorem Cushions.other_set (c : Cushions) (s : CushionSize) (it : Item) :
    (c.set s it).other = c.other := by
  cases s <;> rfl

theorem Cushions.get_empty (s : CushionSize) : ({} : Cushions).get s = none := by
  cases s <;> rfl

theorem applyCushionRow_get (c : Cushions) (row : BillingRow) (s : CushionSize) :
    (applyCushionRow c row).get s =
      if classifyCushion (lowerStr row.description) = .size s then some row.toItem
      else c.get s := by
  unfold applyCushionRow
  cases h : classifyCushion (lowerStr row.description) with
  | size s' =>
    rw [Cushions.get_set]
    by_cases hss : s' = s
    · subst hss; simp
    · rw [if_neg (fun e => hss e.symm), if_neg (by simp [hss])]
  | overflow =>
    rw [if_neg (by simp)]
    cases s <;> rfl

theorem applyCushionRow_other (c : Cushions) (row : BillingRow) :
    (applyCushionRow c row).other =
      if classifyCushion (lowerStr row.description) = .overflow
      then c.other ++ [row.toItem] else c.other := by
  unfold applyCushionRow
  cases h : classifyCushion (lowerStr row.description) with
  | size s' => rw [Cushions.other_set, if_neg (by simp)]
  | overflow => rw [if_pos rfl]

/-- After folding the cushion loop over `rows`, a size slot holds the item of
the last row classified to that size, or its initial content if no row was. -/
theorem foldl_applyCushionRow_get (rows : List BillingRow) (c0 : Cushions) (s : CushionSize) :
    (rows.foldl applyCushionRow c0).get s =
      ((rows.filter (fun r =>
          decide (classifyCushion (lowerStr r.description) = CushionBucket.size s))).getLast?).elim
        (c0.get s) (fun r => some r.toItem) := by
  induction rows using List.reverseRecOn with
  | nil => rfl
  | append_singleton l r ih =>
    rw [List.foldl_append, List.filter_append]
    simp only [List.foldl_cons, List.foldl_nil]
    rw [applyCushionRow_get]
    by_cases hc : classifyCushion (lowerStr r.description) = CushionBucket.size s
    · rw [if_pos hc]
      have hf : List.filter (fun r =>
          decide (classifyCushion (lowerStr r.description) = CushionBucket.size s)) [r] = [r] := by
        simp [hc]
      rw [hf, List.getLast?_concat]
      rfl
    · rw [if_neg hc]
      have hf : List.filter (fun r =>
          decide (classifyCushion (lowerStr r.description) = CushionBucket.size s)) [r] = [] := by
        simp [hc]
      rw [hf, List.append_nil, ih]

/-- After folding the cushion loop over `rows`, the `'Other'` list is the
initial list extended by the items of the rows sent to the final `else`
branch, in row order. -/
theorem foldl_applyCushionRow_other (rows : List BillingRow) (c0 : Cushions) :
    (rows.foldl applyCushionRow c0).other =
      c0.other ++ (rows.filter (fun r =>
        decide (classifyCushion (lowerStr r.description) = CushionBucket.overflow))).map
          BillingRow.toItem := by
  induction rows using List.reverseRecOn with
  | nil => simp
  | append_singleton l r ih =>
    rw [List.foldl_append, List.filter_append]
    simp only [List.foldl_cons, List.foldl_nil]
    rw [applyCushionRow_other]
    by_cases hc : classifyCushion (lowerStr r.description) = CushionBucket.overflow
    · rw [if_pos hc]
      have hf : List.filter (fun r =>
          decide (classifyCushion (lowerStr r.description) = CushionBucket.overflow)) [r] = [r] := by
        simp [hc]
      rw [hf, ih, List.map_append, List.append_assoc]
      rfl
    · rw [if_neg hc]
      have hf : List.filter (fun r =>
          decide (classifyCushion (lowerStr r.description) = CushionBucket.overflow)) [r] = [] := by
        simp [hc]
      rw [hf, List.append_nil, ih]

/-! ### Inversion lemmas for `find_mask_items` -/

theorem find_mask_items_ok_inv {master : List CatalogRow} {snap : List BillingRow}
    {q : String} {r : MaskReport} (h : find_mask_items master snap q = .ok r) :
    q ≠ "" ∧ r = buildReport master snap q := by
  unfold find_mask_items at h
  split at h
  · exact absurd h (by simp)
  next hq =>
    split at h
    · exact absurd h (by simp)
    · split at h
      · exact absurd h (by simp)
      · split at h
        · injection h with h'
          exact ⟨hq, h'.symm⟩
        · exact absurd h (by simp)

theorem buildReport_cushions (master : List CatalogRow) (snap : List BillingRow)
    (q : String) :
    (buildReport master snap q).cushions =
      (cushionMatches snap q).foldl applyCushionRow {} := rfl

theorem buildReport_fitpack (master : List CatalogRow) (snap : List BillingRow)
    (q : String) :
    (buildReport master snap q).fitpack =
      (fitpackMatches master q).map
        (fun r => (⟨r.itemID, r.itemName, lookupHCPCS snap r.itemID⟩ : Item)) := rfl

/-! ### Soundness of the cushion buckets -/

/-- Any item sitting in a size slot of a report produced by
`find_mask_items` was classified to exactly that size by the rule chain,
evaluated on its lower-cased description. -/
theorem cushions_get_sound {master : List CatalogRow} {snap : List BillingRow}
    {q : String} {r : MaskReport} (h : find_mask_items master snap q = .ok r)
    {s : CushionSize} {it : Item} (hit : r.cushions.get s = some it) :
    classifyCushion (lowerStr it.desc) = CushionBucket.size s := by
  obtain ⟨-, rfl⟩ := find_mask_items_ok_inv h
  rw [buildReport_cushions, foldl_applyCushionRow_get] at hit
  cases hl : ((cushionMatches snap q).filter (fun r =>
      decide (classifyCushion (lowerStr r.description) = CushionBucket.size s))).getLast? with
  | none => rw [hl] at hit; rw [Option.elim] at hit; rw [Cushions.get_empty] at hit; exact absurd hit (by simp)
  | some b =>
    rw [hl] at hit
    have hb : b ∈ (cushionMatches snap q).filter (fun r =>
        decide (classifyCushion (lowerStr r.description) = CushionBucket.size s)) :=
      List.mem_of_mem_getLast? hl
    have hcl : classifyCushion (lowerStr b.description) = CushionBucket.size s :=
      of_decide_eq_true (List.mem_filter.mp hb).2
    have hit' : it = b.toItem := by
      have : some b.toItem = some it := hit
      exact (Option.some.inj this).symm
    rw [hit']
    exact hcl

/-- Any item in the `'Other'` list of a report produced by
`find_mask_items` fell through all eight size rules. -/
theorem cushions_other_sound {master : List CatalogRow} {snap : List BillingRow}
    {q : String} {r : MaskReport} (h : find_mask_items master snap q = .ok r)
    {it : Item} (hit : it ∈ r.cushions.other) :
    classifyCushion (lowerStr it.desc) = CushionBucket.overflow := by
  obtain ⟨-, rfl⟩ := find_mask_items_ok_inv h
  rw [buildReport_cushions, foldl_applyCushionRow_other] at hit
  simp only [List.nil_append] at hit
  obtain ⟨b, hb, rfl⟩ := List.mem_map.mp hit
  exact of_decide_eq_true (List.mem_filter.mp hb).2

/-! ### Claim C9 -/

/-- C9: in every report produced by `find_mask_items`, each cushion size
key other than `'Other'` holds at most one item, namely the item of the
most-recently-processed matching billing row (the last row of the cushion
match set classified to that size; earlier matches are overwritten), and
the `'Other'` list holds exactly the fall-through rows in insertion
order. -/
theorem c9_size_slot_last_match_wins (master : List CatalogRow) (snap : List BillingRow)
    (q : String) (r : MaskReport) (h : find_mask_items master snap q = .ok r) :
    (∀ s : CushionSize,
      r.cushions.get s = (((cushionMatches snap q).filter (fun b =>
        decide (classifyCushion (lowerStr b.description) = CushionBucket.size s))).getLast?).map
          BillingRow.toItem) ∧
    r.cushions.other = ((cushionMatches snap q).filter (fun b =>
      decide (classifyCushion (lowerStr b.description) = CushionBucket.overflow))).map
        BillingRow.toItem := by
  obtain ⟨-, rfl⟩ := find_mask_items_ok_inv h
  constructor
  · intro s
    rw [buildReport_cushions, foldl_applyCushionRow_get, Cushions.get_empty]
    cases ((cushionMatches snap q).filter (fun b =>
      decide (classifyCushion (lowerStr b.description) = CushionBucket.size s))).getLast? <;> rfl
  · rw [buildReport_cushions, foldl_applyCushionRow_other]
    rfl

def c9Master : List CatalogRow := []

def c9Snap : List BillingRow :=
  [⟨"B1", "F40 Cushion Small", "A1"⟩,
   ⟨"B2", "F40 Small Cushion", "A2"⟩,
   ⟨"B3", "F40 Cushion Unusual", "A3"⟩]

/-- Witness for C9 at a concrete inventory: two Small matches (the later
row wins the slot) and one fall-through row in `'Other'`. -/
theorem c9_witness :
    ((find_mask_items c9Master c9Snap "F40").getReport.cushions.get .small =
        (((cushionMatches c9Snap "F40").filter (fun b =>
          decide (classifyCushion (lowerStr b.description) =
            CushionBucket.size .small))).getLast?).map BillingRow.toItem) ∧
    (find_mask_items c9Master c9Snap "F40").getReport.cushions.other =
      ((cushionMatches c9Snap "F40").filter (fun b =>
        decide (classifyCushion (lowerStr b.description) =
          CushionBucket.overflow))).map BillingRow.toItem :=
  ⟨(c9_size_slot_last_match_wins c9Master c9Snap "F40"
      ((find_mask_items c9Master c9Snap "F40").getReport) (by decide)).1 .small,
   (c9_size_slot_last_match_wins c9Master c9Snap "F40"
      ((find_mask_items c9Master c9Snap "F40").getReport) (by decide)).2⟩

/-! ### Claim C2 -/

def c2Master : List CatalogRow := []

def c2Snap : List BillingRow := [⟨"B1", "Medium Wide Cushion", "A7032"⟩]

/-- C2: every populated size slot passed exactly its own rule of the
priority-ordered chain (`classifyCushion` is the chain, first match wins),
and the description `"Medium Wide Cushion"` lands in `Medium/Wide`,
never in `Medium` nor `Wide`. -/
theorem c2_priority_rules_sound :
    (∀ (master : List CatalogRow) (snap : List BillingRow) (q : String) (r : MaskReport),
      find_mask_items master snap q = .ok r →
      ∀ (s : CushionSize) (it : Item), r.cushions.get s = some it →
        classifyCushion (lowerStr it.desc) = CushionBucket.size s) ∧
    classifyCushion (lowerStr "Medium Wide Cushion") = CushionBucket.size .mediumWide ∧
    (find_mask_items c2Master c2Snap "Cushion").getReport.cushions.mediumWide =
      some ⟨"B1", "Medium Wide Cushion", "A7032"⟩ ∧
    (find_mask_items c2Master c2Snap "Cushion").getReport.cushions.medium = none ∧
    (find_mask_items c2Master c2Snap "Cushion").getReport.cushions.wide = none :=
  ⟨fun _ _ _ _ h _ _ hit => cushions_get_sound h hit, by decide, by decide, by decide, by decide⟩

/-- Witness for C2's general part at a concrete inventory. -/
theorem c2_witness :
    classifyCushion (lowerStr
      (Item.desc ⟨"B1", "Medium Wide Cushion", "A7032"⟩)) =
      CushionBucket.size .mediumWide :=
  c2_priority_rules_sound.1 c2Master c2Snap "Cushion"
    ((find_mask_items c2Master c2Snap "Cushion").getReport) (by decide)
    .mediumWide ⟨"B1", "Medium Wide Cushion", "A7032"⟩ (by decide)

/-! ### Claim C1 -/

def c1Master : List CatalogRow := []

def c1Snap : List BillingRow :=
  [⟨"B1", "AirFit F40 Frame System Headgear", "A7035"⟩]

/-- Counterexample to C1 as stated: a matched billing row whose
description contains both `"Frame System"` and `"Headgear"` is received
by the Frame list and by the Headgear list. -/
theorem c1_counterexample :
    (⟨"B1", "AirFit F40 Frame System Headgear", "A7035"⟩ : Item) ∈
        (find_mask_items c1Master c1Snap "F40").getReport.frame ∧
    (⟨"B1", "AirFit F40 Frame System Headgear", "A7035"⟩ : Item) ∈
        (find_mask_items c1Master c1Snap "F40").getReport.headgear := by decide

/-- C1 (amended): within the cushion classification the assignment is
exclusive — no item sits in two different size slots, and no slotted item
is also in the `'Other'` list.  (The Frame, Headgear and Cushions keyword
filters are independent and may overlap, as the counterexample shows.) -/
theorem c1_cushion_assignment_exclusive (master : List CatalogRow)
    (snap : List BillingRow) (q : String) (r : MaskReport)
    (h : find_mask_items master snap q = .ok r) :
    (∀ (s s' : CushionSize) (it : Item),
      r.cushions.get s = some it → r.cushions.get s' = some it → s = s') ∧
    (∀ (s : CushionSize) (it : Item),
      r.cushions.get s = some it → it ∉ r.cushions.other) := by
  constructor
  · intro s s' it hs hs'
    have h1 := cushions_get_sound h hs
    have h2 := cushions_get_sound h hs'
    rw [h1] at h2
    exact (CushionBucket.size.inj h2)
  · intro s it hs hmem
    have h1 := cushions_get_sound h hs
    have h2 := cushions_other_sound h hmem
    rw [h1] at h2
    exact absurd h2 (by simp)

def c1wSnap : List BillingRow := [⟨"B2", "F40 Cushion Small", "A7032"⟩]

/-- Witness for the amended C1 at a concrete inventory. -/
theorem c1_witness :
    (⟨"B2", "F40 Cushion Small", "A7032"⟩ : Item) ∉
      (find_mask_items c1Master c1wSnap "F40").getReport.cushions.other :=
  (c1_cushion_assignment_exclusive c1Master c1wSnap "F40"
      ((find_mask_items c1Master c1wSnap "F40").getReport) (by decide)).2
    .small ⟨"B2", "F40 Cushion Small", "A7032"⟩ (by decide)

/-! ### Claim C3 -/

def c3Master : List CatalogRow := []

def c3Snap : List BillingRow := [⟨"B1", "AirFit F40 Cushion", "A7032"⟩]

/-- Counterexample to C3 as stated: the whitespace-only query `" "` is
not rejected by `find_mask_items` — it passes the `if not mask_name`
guard and is filtered normally (here it matches the description, so a
full report is returned). -/
theorem c3_counterexample :
    find_mask_items c3Master c3Snap " " ≠ FindResult.invalidArg ∧
    find_mask_items c3Master c3Snap " " = .ok (buildReport c3Master c3Snap " ") := by
  decide

/-- C3 (amended): `find_mask_items` rejects exactly the empty query with
the `ValueError`; a whitespace-only query passes its guard, but the CLI
strips the raw input first, so any whitespace-only raw input becomes
empty, aborts, and no report text is emitted. -/
theorem c3_empty_rejected_cli_strips (master : List CatalogRow) (snap : List BillingRow) :
    find_mask_items master snap "" = .invalidArg ∧
    (∀ raw : String, stripStr raw = "" → cli_run master snap raw = none) := by
  refine ⟨by simp [find_mask_items], ?_⟩
  intro raw hr
  unfold cli_run
  rw [hr]
  simp

/-- Witness for the amended C3: the empty query is rejected, and the
whitespace-only raw CLI input `" "` produces no report. -/
theorem c3_witness :
    find_mask_items c3Master c3Snap "" = FindResult.invalidArg ∧
    cli_run c3Master c3Snap " " = none :=
  ⟨(c3_empty_rejected_cli_strips c3Master c3Snap).1,
   (c3_empty_rejected_cli_strips c3Master c3Snap).2 " " (by decide)⟩

/-! ### Claim C6 -/

def c6Master : List CatalogRow := [⟨"M1", "AirFit F40 Mask", "Full Face"⟩]

def c6Snap : List BillingRow := [⟨"B1", "AirFit F40 Cushion", "A7032"⟩]

/-- Counterexample to C6 as stated: the query is a regular expression,
not a substring.  The query `"."` is contained in no catalog name and no
billing description, yet it regex-matches every row, so `find_mask_items`
returns a full report instead of `NotFound`; and the query `"("` fails to
compile, so the run raises `re.error` and aborts instead of rendering. -/
theorem c6_counterexample :
    (hasSubCI "AirFit F40 Mask" "." = false ∧
      hasSubCI "AirFit F40 Cushion" "." = false) ∧
    find_mask_items c6Master c6Snap "." = .ok (buildReport c6Master c6Snap ".") ∧
    find_mask_items c6Master c6Snap "(" = FindResult.reError ∧
    print_mask_report c6Master c6Snap "(" = none := by decide

/-- C6 (amended): for every non-empty query that compiles as a regular
expression and regex-matches no catalog name and no billing description
(case-insensitively), `find_mask_items` returns the report-level
`{'error': ...}` result carrying the query (no exception), and the run
still prints the error message stating that no items were found.  A query
matching nothing as a substring can still regex-match (so containment is
the wrong reading), and a non-compiling query aborts the run instead. -/
theorem c6_zero_match_not_found (master : List CatalogRow) (snap : List BillingRow)
    (q : String) (hq : q ≠ "")
    (hc : (reParse (lowerStr q)).isSome = true)
    (hm : ∀ c ∈ master, reContainsCI c.itemName q = some false)
    (hs : ∀ b ∈ snap, reContainsCI b.description q = some false) :
    find_mask_items master snap q = .notFound ("No items found for mask: " ++ q) ∧
    print_mask_report master snap q =
      some ["## Error\n" ++ ("No items found for mask: " ++ q)] := by
  have hm2 : masterMatches master q = [] := by
    apply List.filter_eq_nil_iff.mpr
    intro a ha
    simp [hm a ha]
  have hs2 : snapMatches snap q = [] := by
    apply List.filter_eq_nil_iff.mpr
    intro a ha
    simp [hs a ha]
  have hnn : (reParse (lowerStr q)).isNone = false := by
    obtain ⟨rx, hrx⟩ := Option.isSome_iff_exists.mp hc
    rw [hrx]
    rfl
  have h1 : find_mask_items master snap q =
      .notFound ("No items found for mask: " ++ q) := by
    unfold find_mask_items
    rw [if_neg hq, hnn, if_neg (by simp), if_pos ⟨hm2, hs2⟩]
  refine ⟨h1, ?_⟩
  unfold print_mask_report
  rw [h1]

/-- Witness for the amended C6: the query `"Zebra"` compiles and matches
nothing; the run ends in the `NotFound` report and still prints the
error text. -/
theorem c6_witness :
    find_mask_items c6Master c6Snap "Zebra" =
      .notFound ("No items found for mask: " ++ "Zebra") ∧
    print_mask_report c6Master c6Snap "Zebra" =
      some ["## Error\n" ++ ("No items found for mask: " ++ "Zebra")] :=
  c6_zero_match_not_found c6Master c6Snap "Zebra" (by decide) (by decide)
    (by decide) (by decide)

/-! ### Claim C7 -/
/-!
#### Correctness of the regular-expression matcher

`reSearch` is a Brzozowski-derivative matcher; these lemmas relate it to
the language `ReMatch`, and show that on a pattern made only of literal
characters it coincides with substring containment.
-/

theorem reNullable_iff (r : Re) : reNullable r = true ↔ ReMatch r [] := by
  constructor
  · intro h
    induction r with
    | emptyset => exact absurd h (by simp [reNullable])
    | eps => exact ReMatch.eps
    | char c => exact absurd h (by simp [reNullable])
    | dot => exact absurd h (by simp [reNullable])
    | seq r1 r2 ih1 ih2 =>
      simp only [reNullable, Bool.and_eq_true] at h
      exact ReMatch.seq (ih1 h.1) (ih2 h.2)
    | alt r1 r2 ih1 ih2 =>
      simp only [reNullable, Bool.or_eq_true] at h
      rcases h with h | h
      · exact ReMatch.altL (ih1 h)
      · exact ReMatch.altR (ih2 h)
    | star r1 ih => exact ReMatch.starNil r1
  · intro h
    generalize hx : ([] : List Char) = x at h
    induction h with
    | eps => rfl
    | char c => exact absurd hx (by simp)
    | dot hne => exact absurd hx (by simp)
    | seq m1 m2 ih1 ih2 =>
      have h2 := List.append_eq_nil.mp hx.symm
      simp only [reNullable, Bool.and_eq_true]
      exact ⟨ih1 h2.1.symm, ih2 h2.2.symm⟩
    | altL m ih =>
      simp only [reNullable, Bool.or_eq_true]
      exact Or.inl (ih hx)
    | altR m ih =>
      simp only [reNullable, Bool.or_eq_true]
      exact Or.inr (ih hx)
    | starNil r1 => rfl
    | starCons m1 m2 ih1 ih2 => rfl

theorem reMatch_eps_inv {x : List Char} (h : ReMatch .eps x) : x = [] := by
  cases h
  rfl

theorem reMatch_char_inv {c : Char} {x : List Char} (h : ReMatch (.char c) x) :
    x = [c] := by
  cases h
  rfl

theorem reMatch_dot_inv {x : List Char} (h : ReMatch .dot x) :
    ∃ c, c ≠ '\n' ∧ x = [c] := by
  cases h with
  | dot hne => exact ⟨_, hne, rfl⟩

theorem reMatch_seq_inv {r1 r2 : Re} {x : List Char} (h : ReMatch (.seq r1 r2) x) :
    ∃ s1 s2, x = s1 ++ s2 ∧ ReMatch r1 s1 ∧ ReMatch r2 s2 := by
  cases h with
  | seq m1 m2 => exact ⟨_, _, rfl, m1, m2⟩

theorem reMatch_alt_inv {r1 r2 : Re} {x : List Char} (h : ReMatch (.alt r1 r2) x) :
    ReMatch r1 x ∨ ReMatch r2 x := by
  cases h with
  | altL m => exact Or.inl m
  | altR m => exact Or.inr m

theorem reDeriv_sound (r : Re) (c : Char) :
    ∀ {s : List Char}, ReMatch (reDeriv r c) s → ReMatch r (c :: s) := by
  induction r with
  | emptyset => intro s h; exact absurd h (by intro h; nomatch h)
  | eps => intro s h; exact absurd h (by intro h; nomatch h)
  | char d =>
    intro s h
    simp only [reDeriv] at h
    by_cases hc : c = d
    · rw [if_pos hc] at h
      rw [reMatch_eps_inv h, hc]
      exact ReMatch.char d
    · rw [if_neg hc] at h
      exact absurd h (by intro h; nomatch h)
  | dot =>
    intro s h
    simp only [reDeriv] at h
    by_cases hc : c = '\n'
    · rw [if_pos hc] at h
      exact absurd h (by intro h; nomatch h)
    · rw [if_neg hc] at h
      rw [reMatch_eps_inv h]
      exact ReMatch.dot hc
  | seq r1 r2 ih1 ih2 =>
    intro s h
    simp only [reDeriv] at h
    by_cases hn : reNullable r1 = true
    · rw [if_pos hn] at h
      rcases reMatch_alt_inv h with h2 | h2
      · obtain ⟨s1, s2, rfl, m1, m2⟩ := reMatch_seq_inv h2
        exact ReMatch.seq (ih1 m1) m2
      · have h0 : ReMatch r1 [] := (reNullable_iff r1).mp hn
        exact ReMatch.seq h0 (ih2 h2)
    · rw [if_neg hn] at h
      obtain ⟨s1, s2, rfl, m1, m2⟩ := reMatch_seq_inv h
      exact ReMatch.seq (ih1 m1) m2
  | alt r1 r2 ih1 ih2 =>
    intro s h
    simp only [reDeriv] at h
    rcases reMatch_alt_inv h with h2 | h2
    · exact ReMatch.altL (ih1 h2)
    · exact ReMatch.altR (ih2 h2)
  | star r1 ih =>
    intro s h
    simp only [reDeriv] at h
    obtain ⟨s1, s2, rfl, m1, m2⟩ := reMatch_seq_inv h
    exact ReMatch.starCons (ih m1) m2

theorem reStar_cons_inv {r0 : Re} {x : List Char} (h : ReMatch r0 x) :
    ∀ {r : Re} {c : Char} {s : List Char}, r0 = Re.star r → x = c :: s →
      ∃ s1 s2, s = s1 ++ s2 ∧ ReMatch r (c :: s1) ∧ ReMatch (Re.star r) s2 := by
  induction h with
  | eps => intro r c s hr hx; exact absurd hr (by simp)
  | char c0 => intro r c s hr hx; exact absurd hr (by simp)
  | dot hne => intro r c s hr hx; exact absurd hr (by simp)
  | seq m1 m2 ih1 ih2 => intro r c s hr hx; exact absurd hr (by simp)
  | altL m ih => intro r c s hr hx; exact absurd hr (by simp)
  | altR m ih => intro r c s hr hx; exact absurd hr (by simp)
  | starNil r1 => intro r c s hr hx; exact absurd hx (by simp)
  | @starCons r1 s1 s2 m1 m2 ih1 ih2 =>
    intro r c s hr hx
    injection hr with hr1
    subst hr1
    cases s1 with
    | nil =>
      simp only [List.nil_append] at hx
      exact ih2 rfl hx
    | cons c1 s1t =>
      simp only [List.cons_append, List.cons.injEq] at hx
      obtain ⟨rfl, rfl⟩ := hx
      exact ⟨s1t, s2, rfl, m1, m2⟩

theorem reDeriv_complete (r : Re) (c : Char) :
    ∀ {s : List Char}, ReMatch r (c :: s) → ReMatch (reDeriv r c) s := by
  induction r with
  | emptyset => intro s h; exact absurd h (by intro h; nomatch h)
  | eps => intro s h; exact absurd (reMatch_eps_inv h) (by simp)
  | char d =>
    intro s h
    have h2 := reMatch_char_inv h
    simp only [List.cons.injEq] at h2
    obtain ⟨rfl, rfl⟩ := h2
    simp only [reDeriv, if_pos rfl]
    exact ReMatch.eps
  | dot =>
    intro s h
    obtain ⟨c0, hne, h2⟩ := reMatch_dot_inv h
    simp only [List.cons.injEq] at h2
    obtain ⟨rfl, rfl⟩ := h2
    simp only [reDeriv, if_neg hne]
    exact ReMatch.eps
  | seq r1 r2 ih1 ih2 =>
    intro s h
    obtain ⟨s1, s2, hx, m1, m2⟩ := reMatch_seq_inv h
    simp only [reDeriv]
    cases s1 with
    | nil =>
      simp only [List.nil_append] at hx
      subst hx
      have hn : reNullable r1 = true := (reNullable_iff r1).mpr m1
      rw [if_pos hn]
      exact ReMatch.altR (ih2 m2)
    | cons c1 s1t =>
      simp only [List.cons_append, List.cons.injEq] at hx
      obtain ⟨rfl, rfl⟩ := hx
      by_cases hn : reNullable r1 = true
      · rw [if_pos hn]
        exact ReMatch.altL (ReMatch.seq (ih1 m1) m2)
      · rw [if_neg hn]
        exact ReMatch.seq (ih1 m1) m2
  | alt r1 r2 ih1 ih2 =>
    intro s h
    simp only [reDeriv]
    rcases reMatch_alt_inv h with h2 | h2
    · exact ReMatch.altL (ih1 h2)
    · exact ReMatch.altR (ih2 h2)
  | star r1 ih =>
    intro s h
    obtain ⟨s1, s2, rfl, m1, m2⟩ := reStar_cons_inv h rfl rfl
    simp only [reDeriv]
    exact ReMatch.seq (ih m1) m2

theorem rePrefix_iff : ∀ (cs : List Char) (r : Re),
    rePrefix r cs = true ↔ ∃ p, p <+: cs ∧ ReMatch r p := by
  intro cs
  induction cs with
  | nil =>
    intro r
    simp only [rePrefix]
    constructor
    · intro h
      exact ⟨[], List.prefix_refl [], (reNullable_iff r).mp h⟩
    · intro ⟨p, hp, hm⟩
      rw [List.prefix_nil.mp hp] at hm
      exact (reNullable_iff r).mpr hm
  | cons c rest ih =>
    intro r
    simp only [rePrefix, Bool.or_eq_true]
    constructor
    · intro h
      rcases h with h | h
      · exact ⟨[], List.nil_prefix, (reNullable_iff r).mp h⟩
      · obtain ⟨p, hp, hm⟩ := (ih (reDeriv r c)).mp h
        exact ⟨c :: p, List.cons_prefix_cons.mpr ⟨rfl, hp⟩, reDeriv_sound r c hm⟩
    · intro ⟨p, hp, hm⟩
      cases p with
      | nil => exact Or.inl ((reNullable_iff r).mpr hm)
      | cons c1 p1 =>
        obtain ⟨he, hp1⟩ := List.cons_prefix_cons.mp hp
        rw [he] at hm
        exact Or.inr ((ih (reDeriv r c)).mpr ⟨p1, hp1, reDeriv_complete r c hm⟩)

theorem reSearch_iff : ∀ (cs : List Char) (r : Re),
    reSearch r cs = true ↔ ∃ m, m <:+: cs ∧ ReMatch r m := by
  intro cs
  induction cs with
  | nil =>
    intro r
    simp only [reSearch]
    rw [rePrefix_iff]
    constructor
    · intro ⟨p, hp, hm⟩
      exact ⟨p, hp.isInfix, hm⟩
    · intro ⟨m, hm1, hm2⟩
      rw [List.infix_nil.mp hm1] at hm2
      exact ⟨[], List.prefix_refl [], hm2⟩
  | cons c rest ih =>
    intro r
    simp only [reSearch, Bool.or_eq_true]
    rw [rePrefix_iff, ih]
    constructor
    · intro h
      rcases h with ⟨p, hp, hm⟩ | ⟨m, hm1, hm2⟩
      · exact ⟨p, hp.isInfix, hm⟩
      · exact ⟨m, (List.infix_cons_iff.mpr (Or.inr hm1)), hm2⟩
    · intro ⟨m, hm1, hm2⟩
      rcases List.infix_cons_iff.mp hm1 with h2 | h2
      · exact Or.inl ⟨m, h2, hm2⟩
      · exact Or.inr ⟨m, h2, hm2⟩

theorem litRe_match : ∀ (l : List Char) (s : List Char),
    ReMatch (litRe l) s ↔ s = l := by
  intro l
  induction l with
  | nil =>
    intro s
    constructor
    · exact reMatch_eps_inv
    · intro h; subst h; exact ReMatch.eps
  | cons c l1 ih =>
    intro s
    constructor
    · intro h
      obtain ⟨s1, s2, rfl, m1, m2⟩ := reMatch_seq_inv h
      rw [reMatch_char_inv m1, (ih s2).mp m2]
      rfl
    · intro h
      subst h
      exact ReMatch.seq (ReMatch.char c) ((ih l1).mpr rfl)

theorem reSearch_litRe (l cs : List Char) :
    reSearch (litRe l) cs = true ↔ l <:+: cs := by
  rw [reSearch_iff]
  constructor
  · intro ⟨m, hm1, hm2⟩
    rw [(litRe_match l m).mp hm2] at hm1
    exact hm1
  · intro h
    exact ⟨l, h, (litRe_match l l).mpr rfl⟩

theorem reParseLoop_lit : ∀ (l : List Char) (alts cur : List Re),
    (∀ c ∈ l, reSpecial c = false) →
    reParseLoop alts cur l =
      some (mkAlts alts (mkConcat (l.reverse.map Re.char ++ cur))) := by
  intro l
  induction l with
  | nil => intro alts cur h; rfl
  | cons c l1 ih =>
    intro alts cur h
    have hc : reSpecial c = false := h c (List.mem_cons_self c l1)
    simp only [reSpecial, Bool.or_eq_false_iff, decide_eq_false_iff_not] at hc
    obtain ⟨⟨⟨⟨⟨⟨⟨⟨⟨⟨⟨⟨h1, h2⟩, h3⟩, h4⟩, h5⟩, h6⟩, h7⟩, h8⟩, h9⟩, h10⟩, h11⟩, h12⟩, h13⟩ := hc
    rw [reParseLoop.eq_def]
    simp only []
    rw [if_neg h1, if_neg h2, if_neg h3, if_neg h4, if_neg h5, if_neg h6,
      if_neg (by simp [h7, h8, h9, h10, h11, h12, h13])]
    rw [ih alts (Re.char c :: cur) (fun d hd => h d (List.mem_cons_of_mem c hd))]
    simp [List.append_assoc]

theorem mkConcat_reverse_map (l : List Char) :
    mkConcat (l.reverse.map Re.char) = litRe l := by
  unfold mkConcat
  rw [List.map_reverse, List.foldl_reverse]
  induction l with
  | nil => rfl
  | cons c l1 ih => simp only [List.map_cons, List.foldr_cons, litRe, ih]

theorem reParse_lit (pat : String) (hlit : isLitPattern pat = true) :
    reParse pat = some (litRe pat.data) := by
  have hall : ∀ c ∈ pat.data, reSpecial c = false := by
    intro c hc
    have h2 := List.all_eq_true.mp hlit c hc
    simp only [Bool.not_eq_true'] at h2
    exact h2
  unfold reParse
  rw [reParseLoop_lit pat.data [] [] hall]
  rw [List.append_nil, mkConcat_reverse_map]
  rfl

/-- On a pattern made only of literal characters, the regular-expression
containment test is exactly substring containment. -/
theorem reContains_lit (s pat : String) (hlit : isLitPattern pat = true) :
    reContains s pat = some (hasSub s pat) := by
  unfold reContains
  rw [reParse_lit pat hlit]
  show some (reSearch (litRe pat.data) s.data) = some (hasSub s pat)
  congr 1
  by_cases hinf : pat.data <:+: s.data
  · rw [(reSearch_litRe pat.data s.data).mpr hinf]
    unfold hasSub
    simp [hinf]
  · have h1 : reSearch (litRe pat.data) s.data = false := by
      cases h2 : reSearch (litRe pat.data) s.data
      · rfl
      · exact absurd ((reSearch_litRe pat.data s.data).mp h2) hinf
    rw [h1]
    unfold hasSub
    simp [hinf]

theorem lookupHCPCS_eq_find (snap : List BillingRow) (i : String) (rx : Re)
    (hrx : reParse i = some rx) :
    lookupHCPCS snap i =
      (snap.find? (fun b => reSearch rx b.code.data)).elim "N/A" (fun b => b.hcpcs) := by
  have hcore : ∀ l : List BillingRow,
      (match l.filter (fun b => reSearch rx b.code.data) with
        | [] => "N/A"
        | b :: _ => b.hcpcs) =
      (l.find? (fun b => reSearch rx b.code.data)).elim "N/A" (fun b => b.hcpcs) := by
    intro l
    induction l with
    | nil => rfl
    | cons b bs ih =>
      by_cases hb : reSearch rx b.code.data
      · rw [List.find?_cons_of_pos (p := fun b => reSearch rx b.code.data) bs hb]
        simp [List.filter_cons, hb]
      · rw [List.find?_cons_of_neg (p := fun b => reSearch rx b.code.data) bs (by simp [hb])]
        simp only [List.filter_cons, hb]
        simp only [Bool.false_eq_true, if_false]
        exact ih
  calc lookupHCPCS snap i
      = (match snap.filter (fun b => reSearch rx b.code.data) with
          | [] => "N/A"
          | b :: _ => b.hcpcs) := by
        unfold lookupHCPCS
        rw [hrx]
    _ = (snap.find? (fun b => reSearch rx b.code.data)).elim "N/A" (fun b => b.hcpcs) :=
        hcore snap

theorem buildReport_alternatives (master : List CatalogRow) (snap : List BillingRow)
    (q : String) :
    (buildReport master snap q).alternatives =
      match masterMatches master q with
      | [] => .fallback alternativesFallback
      | first :: _ => .items ((alternativeRows master q first.category).map
          (fun r => (⟨r.itemID, r.itemName, lookupHCPCS snap r.itemID⟩ : Item))) := rfl

def c7Master : List CatalogRow := [⟨"M.100", "AirFit F40 Fitpack", "Full Face"⟩]

def c7Snap : List BillingRow := [⟨"MX100", "AirFit F40 Cushion", "K9"⟩]

/-- Counterexample to C7 as stated: the catalog id is used as a regular
expression, not a substring.  The id `"M.100"` is contained in no billing
item code, so the claim requires the literal `"N/A"`, yet it regex-matches
the code `"MX100"` and the program returns that row's `HCPCS`; and a
report whose looked-up id fails to compile (here `"M(100"`) aborts with
`re.error` instead of yielding `"N/A"`. -/
theorem c7_counterexample :
    hasSub "MX100" "M.100" = false ∧
    lookupHCPCS c7Snap "M.100" = "K9" ∧
    (⟨"M.100", "AirFit F40 Fitpack", "K9"⟩ : Item) ∈
      (find_mask_items c7Master c7Snap "F40").getReport.fitpack ∧
    find_mask_items [⟨"M(100", "AirFit F40 Fitpack", "Full Face"⟩] c7Snap "F40" =
      FindResult.reError := by decide

/-- C7 (amended): the reimbursement code of every catalog-derived item
(Fitpack matches and Alternatives entries) is obtained by scanning billing
rows whose item code is matched by the catalog id used as a regular
expression, taking the `HCPCS` of the first such row in table order, and
is the literal `"N/A"` when the id matches no item code.  For an id made
only of literal characters this matching is exactly substring containment
(the claim's original reading); an id with metacharacters can match codes
that do not contain it, and an id that fails to compile aborts the run. -/
theorem c7_catalog_hcpcs_first_match_or_na :
    (∀ (snap : List BillingRow) (i : String) (rx : Re), reParse i = some rx →
      lookupHCPCS snap i =
        (snap.find? (fun b => reSearch rx b.code.data)).elim "N/A" (fun b => b.hcpcs)) ∧
    (∀ (snap : List BillingRow) (i : String) (rx : Re), reParse i = some rx →
      (∀ b ∈ snap, reSearch rx b.code.data = false) → lookupHCPCS snap i = "N/A") ∧
    (∀ (s i : String), isLitPattern i = true → reContains s i = some (hasSub s i)) ∧
    (∀ (master : List CatalogRow) (snap : List BillingRow) (q : String) (r : MaskReport),
      find_mask_items master snap q = .ok r →
      (∀ it ∈ r.fitpack, it.hcpcs = lookupHCPCS snap it.id) ∧
      (∀ xs, r.alternatives = .items xs → ∀ it ∈ xs, it.hcpcs = lookupHCPCS snap it.id)) := by
  refine ⟨lookupHCPCS_eq_find, ?_, ?_, ?_⟩
  · intro snap i rx hrx hnone
    rw [lookupHCPCS_eq_find snap i rx hrx]
    have h2 : snap.find? (fun b => reSearch rx b.code.data) = none := by
      apply List.find?_eq_none.mpr
      intro b hb
      simp [hnone b hb]
    rw [h2]
    rfl
  · intro s i hlit
    exact reContains_lit s i hlit
  · intro master snap q r h
    obtain ⟨-, rfl⟩ := find_mask_items_ok_inv h
    constructor
    · intro it hit
      rw [buildReport_fitpack] at hit
      obtain ⟨row, -, rfl⟩ := List.mem_map.mp hit
      rfl
    · intro xs hxs it hit
      rw [buildReport_alternatives] at hxs
      cases hmm : masterMatches master q with
      | nil => rw [hmm] at hxs; exact absurd hxs (by simp)
      | cons first rest =>
        rw [hmm] at hxs
        injection hxs with hxs2
        rw [← hxs2] at hit
        obtain ⟨row, -, rfl⟩ := List.mem_map.mp hit
        rfl

def c7wMaster : List CatalogRow := [⟨"M100", "AirFit F40 Fitpack Small", "Full Face"⟩]

def c7wSnap : List BillingRow := [⟨"XM100Y", "AirFit F40 Cushion", "A7027"⟩]

/-- Witness for the amended C7: the Fitpack item `M100` picks up `A7027`
from the billing row whose code `XM100Y` is matched by the literal id
`M100` — which, as a metacharacter-free pattern, is exactly substring
containment. -/
theorem c7_witness :
    (Item.hcpcs ⟨"M100", "AirFit F40 Fitpack Small", "A7027"⟩) =
      lookupHCPCS c7wSnap (Item.id ⟨"M100", "AirFit F40 Fitpack Small", "A7027"⟩) ∧
    reContains "XM100Y" "M100" = some (hasSub "XM100Y" "M100") :=
  ⟨(c7_catalog_hcpcs_first_match_or_na.2.2.2 c7wMaster c7wSnap "F40"
      ((find_mask_items c7wMaster c7wSnap "F40").getReport) (by decide)).1
    ⟨"M100", "AirFit F40 Fitpack Small", "A7027"⟩ (by decide),
   c7_catalog_hcpcs_first_match_or_na.2.2.1 "XM100Y" "M100" (by decide)⟩


/-! ### Claim C4 -/

theorem bundle_foldl_eq_filterMap (c : Cushions) (keys : List CushionSize)
    (acc : List BundleEntry) :
    keys.foldl (fun acc s =>
      match c.get s with
      | some x => acc ++ [cushionEntry x]
      | none => acc) acc =
    acc ++ keys.filterMap (fun s => (c.get s).map cushionEntry) := by
  induction keys generalizing acc with
  | nil => simp
  | cons k ks ih =>
    cases h : c.get k with
    | none => simp [List.foldl_cons, List.filterMap_cons, h, ih]
    | some x => simp [List.foldl_cons, List.filterMap_cons, h, ih]

/-- C4: `generate_ordering_bundle` emits, in this fixed order: each
present cushion size slot at quantity 3 in size-key iteration order, then
each `'Other'` cushion at quantity 3, then the first Headgear item at
quantity 1 if any, then the first Frame item at quantity 1 if any, then
the first Fitpack item at quantity 1 if any; a report with no items
yields the empty bundle. -/
theorem c4_bundle_fixed_order :
    (∀ r : MaskReport, generate_ordering_bundle r =
      cushionKeyOrder.filterMap (fun s => (r.cushions.get s).map cushionEntry) ++
      r.cushions.other.map cushionEntry ++
      r.headgear.head?.elim [] (fun h => [⟨h.id, h.desc, h.hcpcs, 1, "Headgear"⟩]) ++
      r.frame.head?.elim [] (fun f => [⟨f.id, f.desc, f.hcpcs, 1, "Frame"⟩]) ++
      r.fitpack.head?.elim [] (fun f => [⟨f.id, f.desc, f.hcpcs, 1, "Fitpack"⟩])) ∧
    generate_ordering_bundle
      { fitpack := [], frame := [], headgear := [], cushions := {},
        summary := summaryFallback, pros := prosFallback, cons := consFallback,
        alternatives := .fallback alternativesFallback } = [] := by
  constructor
  · intro r
    unfold generate_ordering_bundle
    rw [bundle_foldl_eq_filterMap]
    cases r.headgear <;> cases r.frame <;> cases r.fitpack <;> simp
  · decide

/-! ### Claim C8 -/

def c8Master : List CatalogRow := [⟨"X1", "A11 Hose", "CPAP"⟩]

def c8Snap : List BillingRow := [⟨"X1", "AirSense Hose", "K1"⟩]

/-- Counterexample to C8 as stated: deduplication compares whole entries,
not identifiers.  A catalog row and a billing row with the same id `X1`
but different descriptions both land in the Hose bucket, so the bucket
holds two entries with the same identifier. -/
theorem c8_counterexample :
    (find_airsense_accessories c8Master c8Snap).hose.map Item.id = ["X1", "X1"] ∧
    ¬ ((find_airsense_accessories c8Master c8Snap).hose.map Item.id).Nodup := by
  decide

theorem applySnapAccRow_nodup (acc : Accessories) (row : BillingRow) :
    (acc.hose.Nodup → (applySnapAccRow acc row).hose.Nodup) ∧
    (acc.filter.Nodup → (applySnapAccRow acc row).filter.Nodup) ∧
    (acc.waterChamber.Nodup → (applySnapAccRow acc row).waterChamber.Nodup) := by
  simp only [applySnapAccRow]
  split_ifs with h1 h2 h3 h4 h5 h6 <;>
    refine ⟨fun h => ?_, fun h => ?_, fun h => ?_⟩ <;>
    first
      | exact h
      | · rw [← List.concat_eq_append]
          first
            | exact List.Nodup.concat h2 h
            | exact List.Nodup.concat h4 h
            | exact List.Nodup.concat h6 h

theorem foldl_applySnapAccRow_nodup (rows : List BillingRow) (acc : Accessories) :
    (acc.hose.Nodup → (rows.foldl applySnapAccRow acc).hose.Nodup) ∧
    (acc.filter.Nodup → (rows.foldl applySnapAccRow acc).filter.Nodup) ∧
    (acc.waterChamber.Nodup → (rows.foldl applySnapAccRow acc).waterChamber.Nodup) := by
  induction rows generalizing acc with
  | nil => exact ⟨fun h => h, fun h => h, fun h => h⟩
  | cons b bs ih =>
    refine ⟨fun h => ?_, fun h => ?_, fun h => ?_⟩ <;>
      rw [List.foldl_cons]
    · exact (ih (applySnapAccRow acc b)).1 ((applySnapAccRow_nodup acc b).1 h)
    · exact (ih (applySnapAccRow acc b)).2.1 ((applySnapAccRow_nodup acc b).2.1 h)
    · exact (ih (applySnapAccRow acc b)).2.2 ((applySnapAccRow_nodup acc b).2.2 h)

/-- C8 (amended): the billing-table pass deduplicates by whole entry
(id, description and code together), skipping a row whose exact entry is
already present; hence buckets that are duplicate-free after the
catalog-table pass stay duplicate-free — but entries sharing only the
identifier may appear twice, as the counterexample shows. -/
theorem c8_merge_dedup_by_whole_entry (master : List CatalogRow) (snap : List BillingRow)
    (hh : (accMasterPhase master snap).hose.Nodup)
    (hf : (accMasterPhase master snap).filter.Nodup)
    (hw : (accMasterPhase master snap).waterChamber.Nodup) :
    (find_airsense_accessories master snap).hose.Nodup ∧
    (find_airsense_accessories master snap).filter.Nodup ∧
    (find_airsense_accessories master snap).waterChamber.Nodup := by
  unfold find_airsense_accessories
  exact ⟨(foldl_applySnapAccRow_nodup _ _).1 hh,
         (foldl_applySnapAccRow_nodup _ _).2.1 hf,
         (foldl_applySnapAccRow_nodup _ _).2.2 hw⟩

/-- Witness for the amended C8 at the concrete inventory of the
counterexample (whose buckets after the catalog pass are duplicate-free;
the two final Hose entries differ as whole entries). -/
theorem c8_witness :
    (find_airsense_accessories c8Master c8Snap).hose.Nodup ∧
    (find_airsense_accessories c8Master c8Snap).filter.Nodup ∧
    (find_airsense_accessories c8Master c8Snap).waterChamber.Nodup :=
  c8_merge_dedup_by_whole_entry c8Master c8Snap (by decide) (by decide) (by decide)

/-! ### Locating the accessory section header in the rendered output -/

theorem print_ok_inv {master : List CatalogRow} {snap : List BillingRow}
    {q : String} {r : MaskReport} {out : List String}
    (hfind : find_mask_items master snap q = .ok r)
    (hp : print_mask_report master snap q = some out) :
    ∃ cl al, cushionSectionLines r.cushions = some cl ∧
      alternativesSectionLines r.alternatives = some al ∧
      out = reportLines master snap q r cl al := by
  unfold print_mask_report at hp
  rw [hfind] at hp
  have hp' : renderOk master snap q r = some out := hp
  unfold renderOk at hp'
  cases hcu : cushionSectionLines r.cushions with
  | none =>
    cases hal : alternativesSectionLines r.alternatives with
    | none => rw [hcu, hal] at hp'; exact absurd hp' (by simp)
    | some al => rw [hcu, hal] at hp'; exact absurd hp' (by simp)
  | some cl =>
    cases hal : alternativesSectionLines r.alternatives with
    | none => rw [hcu, hal] at hp'; exact absurd hp' (by simp)
    | some al =>
      rw [hcu, hal] at hp'
      refine ⟨cl, al, rfl, rfl, ?_⟩
      have hp'' : some (reportLines master snap q r cl al) = some out := hp'
      exact (Option.some.inj hp'').symm

/-- No string whose first character is not `'#'` is the accessory header. -/
theorem ne_accHeader_head {s : String} {c : Char} (hc : s.data.head? = some c)
    (hne : c ≠ '#') : s ≠ accHeader := by
  intro e
  subst e
  have h2 : accHeader.data.head? = some '#' := by decide
  rw [h2] at hc
  exact hne (Option.some.inj hc).symm

/-- No string whose second character is not `'#'` is the accessory header. -/
theorem ne_accHeader_second {s : String} {c : Char}
    (hc : (s.data.drop 1).head? = some c) (hne : c ≠ '#') : s ≠ accHeader := by
  intro e
  subst e
  have h2 : (accHeader.data.drop 1).head? = some '#' := by decide
  rw [h2] at hc
  exact hne (Option.some.inj hc).symm

theorem itemLine_ne_accHeader (it : Item) : itemLine it ≠ accHeader := by
  refine ne_accHeader_head (c := '-') ?_ (by decide)
  simp only [itemLine, format_item_id, String.data_append]
  rfl

theorem cushionLine_ne_accHeader (s : CushionSize) (it : Item) :
    cushionLine s it ≠ accHeader := by
  refine ne_accHeader_head (c := '-') ?_ (by decide)
  simp only [cushionLine, format_item_id, String.data_append]
  rfl

theorem bundleLine_ne_accHeader (e : BundleEntry) : bundleLine e ≠ accHeader := by
  refine ne_accHeader_head (c := '|') ?_ (by decide)
  simp only [bundleLine, format_item_id, String.data_append]
  rfl

theorem dashLine_ne_accHeader (p : String) : "- " ++ p ≠ accHeader := by
  refine ne_accHeader_head (c := '-') ?_ (by decide)
  simp only [String.data_append]
  rfl

theorem title_ne_accHeader (q : String) :
    "# " ++ q ++ " Mask Report 😴\n" ≠ accHeader := by
  refine ne_accHeader_second (c := ' ') ?_ (by decide)
  simp only [String.data_append]
  rfl

theorem accHeader_not_mem_titleSeg (q : String) :
    accHeader ∉ ["# " ++ q ++ " Mask Report 😴\n", "## Associated Items\n",
      "### Fitpack"] := by
  intro h
  simp only [List.mem_cons, List.not_mem_nil, or_false] at h
  rcases h with h | h | h
  · exact title_ne_accHeader q h.symm
  · exact absurd h (by decide)
  · exact absurd h (by decide)

theorem accHeader_not_mem_summarySeg {s : String} (hsum : s ++ "\n" ≠ accHeader) :
    accHeader ∉ ["\n## Summary of Mask", s ++ "\n", "## Pros"] := by
  intro h
  simp only [List.mem_cons, List.not_mem_nil, or_false] at h
  rcases h with h | h | h
  · exact absurd h (by decide)
  · exact hsum h.symm
  · exact absurd h (by decide)

theorem accHeader_not_mem_dashMap (l : List String) :
    accHeader ∉ l.map (fun p => "- " ++ p) := by
  intro h
  obtain ⟨p, -, hp⟩ := List.mem_map.mp h
  exact dashLine_ne_accHeader p hp

theorem accHeader_not_mem_itemSection (xs : List Item) :
    accHeader ∉ itemSectionLines xs := by
  cases xs with
  | nil => decide
  | cons a as =>
    intro h
    have h' : accHeader ∈ (a :: as).map itemLine := h
    obtain ⟨it, -, hit⟩ := List.mem_map.mp h'
    exact itemLine_ne_accHeader it hit

theorem accHeader_not_mem_cushionSection {c : Cushions} {ls : List String}
    (h : cushionSectionLines c = some ls) : accHeader ∉ ls := by
  unfold cushionSectionLines at h
  split at h
  · have h' := Option.some.inj h
    subst h'
    split
    · decide
    · intro hm
      obtain ⟨s, -, hs⟩ := List.mem_filterMap.mp hm
      cases hg : c.get s with
      | none => rw [hg] at hs; exact absurd hs (by simp)
      | some it =>
        rw [hg] at hs
        have : cushionLine s it = accHeader := Option.some.inj hs
        exact cushionLine_ne_accHeader s it this
  · exact absurd h (by simp)

theorem accHeader_not_mem_bundleSection (b : List BundleEntry) :
    accHeader ∉ bundleSectionLines b := by
  cases b with
  | nil => decide
  | cons e es =>
    intro h
    have h' : accHeader ∈ (["| Item ID | Description | HCPCS | Qty | Type |",
        "|---------|-------------|-------|-----|------|"] ++ (e :: es).map bundleLine) := h
    rcases List.mem_append.mp h' with h2 | h2
    · exact absurd h2 (by decide)
    · obtain ⟨x, -, hx⟩ := List.mem_map.mp h2
      exact bundleLine_ne_accHeader x hx

theorem accHeader_not_mem_altSection {a : Alternatives} {ls : List String}
    (h : alternativesSectionLines a = some ls) : accHeader ∉ ls := by
  cases a with
  | fallback m => exact absurd h (by simp [alternativesSectionLines])
  | items xs =>
    have h' : some (xs.map itemLine) = some ls := h
    rw [← Option.some.inj h']
    intro hm
    obtain ⟨it, -, hit⟩ := List.mem_map.mp hm
    exact itemLine_ne_accHeader it hit

theorem buildReport_summary (master : List CatalogRow) (snap : List BillingRow)
    (q : String) :
    (buildReport master snap q).summary =
      match masterMatches master q with
      | [] => summaryFallback
      | first :: _ => "The " ++ q ++ " is a " ++ first.category ++
          " mask. Key features inferred from data: " ++ first.itemName ++ "." := rfl

theorem buildReport_summary_ne_accHeader (master : List CatalogRow)
    (snap : List BillingRow) (q : String) :
    (buildReport master snap q).summary ++ "\n" ≠ accHeader := by
  rw [buildReport_summary]
  cases masterMatches master q with
  | nil =>
    change summaryFallback ++ "\n" ≠ accHeader
    decide
  | cons first rest =>
    change "The " ++ q ++ " is a " ++ first.category ++
      " mask. Key features inferred from data: " ++ first.itemName ++ "." ++ "\n" ≠ accHeader
    refine ne_accHeader_head (c := 'T') ?_ (by decide)
    simp only [String.data_append]
    rfl

/-- When the accessory flag is off, the header line appears nowhere in the
rendered report. -/
theorem accHeader_not_mem_reportLines (master : List CatalogRow) (snap : List BillingRow)
    (q : String) (r : MaskReport) (cl al : List String)
    (hsum : r.summary ++ "\n" ≠ accHeader)
    (hcl : accHeader ∉ cl) (hal : accHeader ∉ al)
    (hsa : show_accessories q = false) :
    accHeader ∉ reportLines master snap q r cl al := by
  have nmem : ∀ (l₁ l₂ : List String), accHeader ∉ l₁ → accHeader ∉ l₂ →
      accHeader ∉ l₁ ++ l₂ := fun l₁ l₂ h1 h2 h => (List.mem_append.mp h).elim h1 h2
  unfold reportLines
  rw [hsa]
  simp only [Bool.false_eq_true, if_false, List.append_assoc, List.nil_append]
  exact nmem _ _ (accHeader_not_mem_titleSeg q)
    (nmem _ _ (accHeader_not_mem_itemSection _)
    (nmem _ _ (by decide)
    (nmem _ _ (accHeader_not_mem_itemSection _)
    (nmem _ _ (by decide)
    (nmem _ _ (accHeader_not_mem_itemSection _)
    (nmem _ _ (by decide)
    (nmem _ _ hcl
    (nmem _ _ (by decide)
    (nmem _ _ (accHeader_not_mem_bundleSection _)
    (nmem _ _ (accHeader_not_mem_summarySeg hsum)
    (nmem _ _ (accHeader_not_mem_dashMap _)
    (nmem _ _ (by decide)
    (nmem _ _ (by decide)
    (nmem _ _ (accHeader_not_mem_dashMap _)
    (nmem _ _ (by decide)
    (nmem _ _ (by decide)
    (nmem _ _ hal
    (nmem _ _ (by decide)
    (by decide)))))))))))))))))))

theorem hasSub_airsense_a11 {s : String}
    (h : hasSub s "airsense a11" = true) : hasSub s "a11" = true := by
  simp only [hasSub, decide_eq_true_eq] at h ⊢
  exact List.IsInfix.trans (by decide) h

/-- The second disjunct of `show_accessories` is redundant: the flag is
equivalent to the lower-cased query containing `"a11"`. -/
theorem show_accessories_eq (q : String) :
    show_accessories q = hasSub (lowerStr q) "a11" := by
  unfold show_accessories
  cases h : hasSub (lowerStr q) "a11" with
  | true => rfl
  | false =>
    cases h2 : hasSub (lowerStr q) "airsense a11" with
    | true => rw [hasSub_airsense_a11 h2] at h; exact absurd h (by simp)
    | false => rfl

/-! ### Claim C5 -/

set_option maxHeartbeats 2000000 in
/-- C5: for a query whose classification succeeds and whose report is
rendered without raising, the AirSense accessories section header appears
in the output exactly when the query case-insensitively contains
`"a11"`. -/
theorem c5_accessory_section_iff_a11 (master : List CatalogRow) (snap : List BillingRow)
    (q : String) (r : MaskReport) (out : List String)
    (hfind : find_mask_items master snap q = .ok r)
    (hp : print_mask_report master snap q = some out) :
    accHeader ∈ out ↔ hasSub (lowerStr q) "a11" = true := by
  obtain ⟨-, hr⟩ := find_mask_items_ok_inv hfind
  obtain ⟨cl, al, hcu, hal, rfl⟩ := print_ok_inv hfind hp
  constructor
  · intro hmem
    by_contra hff
    have hfalse : hasSub (lowerStr q) "a11" = false := Bool.eq_false_iff.mpr hff
    have hsa : show_accessories q = false := by rw [show_accessories_eq, hfalse]
    have hsum : r.summary ++ "\n" ≠ accHeader := by
      rw [hr]
      exact buildReport_summary_ne_accHeader master snap q
    exact accHeader_not_mem_reportLines master snap q r cl al hsum
      (accHeader_not_mem_cushionSection hcu) (accHeader_not_mem_altSection hal) hsa hmem
  · intro hsub
    have hsa : show_accessories q = true := by rw [show_accessories_eq, hsub]
    unfold reportLines
    rw [hsa]
    refine List.mem_append.mpr (Or.inl ?_)
    refine List.mem_append.mpr (Or.inr ?_)
    show accHeader ∈ accessorySectionLines (find_airsense_accessories master snap)
    unfold accessorySectionLines
    refine List.mem_append.mpr (Or.inl ?_)
    refine List.mem_append.mpr (Or.inl ?_)
    refine List.mem_append.mpr (Or.inl ?_)
    refine List.mem_append.mpr (Or.inl ?_)
    refine List.mem_append.mpr (Or.inl ?_)
    refine List.mem_append.mpr (Or.inl ?_)
    exact List.mem_cons_self _ _

def c5Master : List CatalogRow := [⟨"M1", "AirSense A11 AutoSet", "Device"⟩]

def c5Snap : List BillingRow := [⟨"B1", "AirSense A11 Headgear", "A7035"⟩]

set_option maxRecDepth 8192 in
/-- Witness for C5: the query `"A11"` yields a rendered report whose
output contains the accessories header. -/
theorem c5_witness :
    accHeader ∈ (print_mask_report c5Master c5Snap "A11").getD [] ↔
      hasSub (lowerStr "A11") "a11" = true :=
  c5_accessory_section_iff_a11 c5Master c5Snap "A11"
    ((find_mask_items c5Master c5Snap "A11").getReport)
    ((print_mask_report c5Master c5Snap "A11").getD []) (by decide) (by decide)

/-! ### Claim C10 -/

theorem bundleLine_decomp (e : BundleEntry) :
    bundleLine e = ("| " ++ format_item_id e.id ++ " | ") ++ (e.desc.take 50 ++ "...") ++
      (" | " ++ e.hcpcs ++ " | " ++ toString e.qty ++ " | " ++ e.type ++ " |") := by
  unfold bundleLine
  rw [show ("... | " : String) = "..." ++ " | " from rfl]
  simp only [String.append_assoc]

theorem itemLine_decomp (it : Item) :
    itemLine it = ("- " ++ format_item_id it.id ++ ": ") ++ it.desc ++
      (" | HCPCS: " ++ it.hcpcs) := by
  unfold itemLine
  simp only [String.append_assoc]

theorem cushionLine_decomp (s : CushionSize) (it : Item) :
    cushionLine s it = ("- **" ++ sizeLabel s ++ "**: " ++ format_item_id it.id ++ ": ") ++
      it.desc ++ (" | HCPCS: " ++ it.hcpcs) := by
  unfold cushionLine
  simp only [String.append_assoc]

theorem itemLine_mem_itemSection {it : Item} {xs : List Item} (h : it ∈ xs) :
    itemLine it ∈ itemSectionLines xs := by
  cases xs with
  | nil => cases h
  | cons a as => exact List.mem_map_of_mem itemLine h

theorem bundleLine_mem_bundleSection {e : BundleEntry} {b : List BundleEntry} (h : e ∈ b) :
    bundleLine e ∈ bundleSectionLines b := by
  cases b with
  | nil => cases h
  | cons x xs => exact List.mem_append_right _ (List.mem_map_of_mem bundleLine h)

theorem mem_cushionKeyOrder (s : CushionSize) : s ∈ cushionKeyOrder := by
  cases s <;> decide

theorem cushionLine_mem_cushionSection {c : Cushions} {cl : List String}
    {s : CushionSize} {it : Item}
    (hcu : cushionSectionLines c = some cl) (hget : c.get s = some it) :
    cushionLine s it ∈ cl := by
  unfold cushionSectionLines at hcu
  split at hcu
  · have hcl := (Option.some.inj hcu).symm
    subst hcl
    have hmem : cushionLine s it ∈
        cushionKeyOrder.filterMap (fun s => (c.get s).map (cushionLine s)) := by
      apply List.mem_filterMap.mpr
      refine ⟨s, mem_cushionKeyOrder s, ?_⟩
      rw [hget]
      rfl
    split
    next hnil => rw [hnil] at hmem; cases hmem
    next => exact hmem
  · exact absurd hcu (by simp)

set_option maxHeartbeats 2000000 in
/-- C10: in a successfully rendered report, every ordering-bundle row
shows the entry description cut to its first 50 characters and suffixed
with `...`, while the Fitpack/Frame/Headgear, Cushions and Best
Alternatives sections render descriptions in full. -/
theorem c10_bundle_desc_truncated (master : List CatalogRow) (snap : List BillingRow)
    (q : String) (r : MaskReport) (out : List String)
    (hfind : find_mask_items master snap q = .ok r)
    (hp : print_mask_report master snap q = some out) :
    (∀ e ∈ generate_ordering_bundle r, bundleLine e ∈ out ∧
      ∃ pre post, bundleLine e = pre ++ (e.desc.take 50 ++ "...") ++ post) ∧
    (∀ it : Item, it ∈ r.fitpack ∨ it ∈ r.frame ∨ it ∈ r.headgear → itemLine it ∈ out ∧
      ∃ pre post, itemLine it = pre ++ it.desc ++ post) ∧
    (∀ (s : CushionSize) (it : Item), r.cushions.get s = some it → cushionLine s it ∈ out ∧
      ∃ pre post, cushionLine s it = pre ++ it.desc ++ post) ∧
    (∀ (xs : List Item) (it : Item), r.alternatives = .items xs → it ∈ xs →
      itemLine it ∈ out) := by
  obtain ⟨cl, al, hcu, hal, rfl⟩ := print_ok_inv hfind hp
  refine ⟨?_, ?_, ?_, ?_⟩
  · intro e he
    refine ⟨?_, _, _, bundleLine_decomp e⟩
    unfold reportLines
    exact List.mem_append_left _ (List.mem_append_left _ (List.mem_append_left _ (List.mem_append_left _ (List.mem_append_left _ (List.mem_append_left _ (List.mem_append_left _ (List.mem_append_left _ (List.mem_append_left _ (List.mem_append_left _ (List.mem_append_left _ (List.mem_append_right _ (bundleLine_mem_bundleSection he))))))))))))
  · intro it hit
    refine ⟨?_, _, _, itemLine_decomp it⟩
    unfold reportLines
    rcases hit with h | h | h
    · exact List.mem_append_left _ (List.mem_append_left _ (List.mem_append_left _ (List.mem_append_left _ (List.mem_append_left _ (List.mem_append_left _ (List.mem_append_left _ (List.mem_append_left _ (List.mem_append_left _ (List.mem_append_left _ (List.mem_append_left _ (List.mem_append_left _ (List.mem_append_left _ (List.mem_append_left _ (List.mem_append_left _ (List.mem_append_left _ (List.mem_append_left _ (List.mem_append_left _ (List.mem_append_left _ (List.mem_append_right _ (itemLine_mem_itemSection h))))))))))))))))))))
    · exact List.mem_append_left _ (List.mem_append_left _ (List.mem_append_left _ (List.mem_append_left _ (List.mem_append_left _ (List.mem_append_left _ (List.mem_append_left _ (List.mem_append_left _ (List.mem_append_left _ (List.mem_append_left _ (List.mem_append_left _ (List.mem_append_left _ (List.mem_append_left _ (List.mem_append_left _ (List.mem_append_left _ (List.mem_append_left _ (List.mem_append_left _ (List.mem_append_right _ (itemLine_mem_itemSection h))))))))))))))))))
    · exact List.mem_append_left _ (List.mem_append_left _ (List.mem_append_left _ (List.mem_append_left _ (List.mem_append_left _ (List.mem_append_left _ (List.mem_append_left _ (List.mem_append_left _ (List.mem_append_left _ (List.mem_append_left _ (List.mem_append_left _ (List.mem_append_left _ (List.mem_append_left _ (List.mem_append_left _ (List.mem_append_left _ (List.mem_append_right _ (itemLine_mem_itemSection h))))))))))))))))
  · intro s it hget
    refine ⟨?_, _, _, cushionLine_decomp s it⟩
    unfold reportLines
    exact List.mem_append_left _ (List.mem_append_left _ (List.mem_append_left _ (List.mem_append_left _ (List.mem_append_left _ (List.mem_append_left _ (List.mem_append_left _ (List.mem_append_left _ (List.mem_append_left _ (List.mem_append_left _ (List.mem_append_left _ (List.mem_append_left _ (List.mem_append_left _ (List.mem_append_right _ (cushionLine_mem_cushionSection hcu hget))))))))))))))
  · intro xs it hxs hit
    have hmem : itemLine it ∈ al := by
      rw [hxs] at hal
      have h2 : xs.map itemLine = al := Option.some.inj hal
      rw [← h2]
      exact List.mem_map_of_mem itemLine hit
    unfold reportLines
    exact List.mem_append_left _ (List.mem_append_left _ (List.mem_append_left _ (List.mem_append_right _ hmem)))

def c10Master : List CatalogRow := [⟨"M1", "AirFit F40 Mask", "Full Face"⟩]

def c10Snap : List BillingRow :=
  [⟨"B1", "AirFit F40 Headgear Strap Assembly Replacement Part Large Size", "A7035"⟩]

set_option maxRecDepth 8192 in
/-- Witness for C10: a 62-character headgear description appears truncated
in the bundle table row of the rendered report. -/
theorem c10_witness :
    bundleLine ⟨"B1", "AirFit F40 Headgear Strap Assembly Replacement Part Large Size",
        "A7035", 1, "Headgear"⟩ ∈ (print_mask_report c10Master c10Snap "F40").getD [] ∧
    ∃ pre post,
      bundleLine ⟨"B1", "AirFit F40 Headgear Strap Assembly Replacement Part Large Size",
          "A7035", 1, "Headgear"⟩ =
        pre ++ ((BundleEntry.desc ⟨"B1",
          "AirFit F40 Headgear Strap Assembly Replacement Part Large Size",
          "A7035", 1, "Headgear"⟩).take 50 ++ "...") ++ post :=
  (c10_bundle_desc_truncated c10Master c10Snap "F40"
      ((find_mask_items c10Master c10Snap "F40").getReport)
      ((print_mask_report c10Master c10Snap "F40").getD [])
      (by decide) (by decide)).1
    ⟨"B1", "AirFit F40 Headgear Strap Assembly Replacement Part Large Size",
      "A7035", 1, "Headgear"⟩ (by decide)
